import Mathlib

/-!
Shallow embedding of the payslip-calculation core of the
employee-payslip-generator repository: the Role value object, the
Employee variants with their factory, the polymorphic payslip
calculators, and the two relevant HTTP route handlers
(POST /api/employees and POST /api/payslips/calculate).

Numbers (TypeScript `number`) are modelled as rationals; strings as
Lean strings.  Fallible operations (factory dispatch on an unknown
employee kind) return `Except String`.
-/

namespace PayslipGen

/-- Role class from src/unnamed/part_001 (`Role.ts`).  The stored salary
band fields are numbers by the time the class is constructed (the route
handlers apply parseFloat to the persisted strings before calling the
constructor). -/
structure Role where
  id : Nat
  title : String
  description : String
  department : String
  level : Nat
  minSalary : ℚ
  maxSalary : ℚ
  responsibilities : List String
  deriving Repr, DecidableEq

/-- Role.isSalaryInRange: `salary >= this.minSalary && salary <= this.maxSalary`. -/
def Role.isSalaryInRange (r : Role) (salary : ℚ) : Bool :=
  decide (salary ≥ r.minSalary) && decide (salary ≤ r.maxSalary)

/-- Role.addResponsibility: push only when `includes` is false. -/
def Role.addResponsibility (r : Role) (responsibility : String) : Role :=
  if r.responsibilities.contains responsibility then r
  else { r with responsibilities := r.responsibilities ++ [responsibility] }

/-- Role.removeResponsibility: `indexOf` first exact match, `splice` it out
(no-op when `indexOf` returns -1). -/
def Role.removeResponsibility (r : Role) (responsibility : String) : Role :=
  { r with responsibilities := r.responsibilities.erase responsibility }

/-- FullTimeEmployee from src/server/classes/Employee.ts. -/
structure FullTimeEmployee where
  id : Nat
  firstName : String
  lastName : String
  email : String
  role : Role
  startDate : String
  annualSalary : ℚ
  deriving Repr, DecidableEq

/-- FullTimeEmployee.calculateMonthlySalary: `annualSalary / 12`. -/
def FullTimeEmployee.calculateMonthlySalary (e : FullTimeEmployee) : ℚ :=
  e.annualSalary / 12

/-- FullTimeEmployee.getEmployeeType. -/
def FullTimeEmployee.getEmployeeType (_ : FullTimeEmployee) : String :=
  "full-time"

/-- FullTimeEmployee.isEligibleForBenefits. -/
def FullTimeEmployee.isEligibleForBenefits (_ : FullTimeEmployee) : Bool :=
  true

/-- FullTimeEmployee.getAnnualSalary. -/
def FullTimeEmployee.getAnnualSalary (e : FullTimeEmployee) : ℚ :=
  e.annualSalary

/-- PartTimeEmployee from src/server/classes/Employee.ts.  The
`defaultHoursPerMonth` constructor parameter defaults to 80; the default
is applied at the construction sites (EmployeeFactory). -/
structure PartTimeEmployee where
  id : Nat
  firstName : String
  lastName : String
  email : String
  role : Role
  startDate : String
  hourlyRate : ℚ
  defaultHoursPerMonth : ℚ
  deriving Repr, DecidableEq

/-- PartTimeEmployee.calculateMonthlySalary: `hourlyRate * defaultHoursPerMonth`. -/
def PartTimeEmployee.calculateMonthlySalary (e : PartTimeEmployee) : ℚ :=
  e.hourlyRate * e.defaultHoursPerMonth

/-- PartTimeEmployee.getEmployeeType. -/
def PartTimeEmployee.getEmployeeType (_ : PartTimeEmployee) : String :=
  "part-time"

/-- PartTimeEmployee.isEligibleForBenefits. -/
def PartTimeEmployee.isEligibleForBenefits (_ : PartTimeEmployee) : Bool :=
  false

/-- PartTimeEmployee.getHourlyRate. -/
def PartTimeEmployee.getHourlyRate (e : PartTimeEmployee) : ℚ :=
  e.hourlyRate

/-- PartTimeEmployee.calculatePay: `hourlyRate * hoursWorked`. -/
def PartTimeEmployee.calculatePay (e : PartTimeEmployee) (hoursWorked : ℚ) : ℚ :=
  e.hourlyRate * hoursWorked

/-- BaseEmployee: the abstract class has exactly the two concrete
subclasses, modelled as a closed sum. -/
inductive BaseEmployee where
  | full (e : FullTimeEmployee)
  | part (e : PartTimeEmployee)
  deriving Repr, DecidableEq

/-- Polymorphic dispatch of calculateMonthlySalary. -/
def BaseEmployee.calculateMonthlySalary : BaseEmployee → ℚ
  | .full e => e.calculateMonthlySalary
  | .part e => e.calculateMonthlySalary

/-- Polymorphic dispatch of getEmployeeType. -/
def BaseEmployee.getEmployeeType : BaseEmployee → String
  | .full e => e.getEmployeeType
  | .part e => e.getEmployeeType

/-- Polymorphic dispatch of isEligibleForBenefits. -/
def BaseEmployee.isEligibleForBenefits : BaseEmployee → Bool
  | .full e => e.isEligibleForBenefits
  | .part e => e.isEligibleForBenefits

/-- EmployeeFactory.createEmployee: switch on the `type` string;
"full-time" and "part-time" construct the matching variant (part-time
gets the defaulted 80 hours per month), anything else throws
`Unknown employee type: ...`. -/
def EmployeeFactory.createEmployee (id : Nat) (firstName lastName email : String)
    (type : String) (role : Role) (startDate : String) (salary : ℚ) :
    Except String BaseEmployee :=
  if type = "full-time" then
    .ok (.full ⟨id, firstName, lastName, email, role, startDate, salary⟩)
  else if type = "part-time" then
    .ok (.part ⟨id, firstName, lastName, email, role, startDate, salary, 80⟩)
  else
    .error ("Unknown employee type: " ++ type)

/-- PayslipResult interface from src/unnamed/part_000 (`PayslipCalculator.ts`). -/
structure PayslipResult where
  basePay : ℚ
  overtimePay : ℚ
  grossPay : ℚ
  deductions : ℚ
  netPay : ℚ
  hoursWorked : ℚ
  overtimeHours : ℚ
  deriving Repr, DecidableEq

/-- The two concrete calculators, each bound to its employee as in the
subclass constructors. -/
inductive PayslipCalculator where
  | fullTimeCalc (e : FullTimeEmployee)
  | partTimeCalc (e : PartTimeEmployee)
  deriving Repr, DecidableEq

/-- calculateBasePay: the full-time variant ignores hoursWorked and
returns calculateMonthlySalary(); the part-time variant returns
calculatePay(hoursWorked). -/
def PayslipCalculator.calculateBasePay : PayslipCalculator → ℚ → ℚ
  | .fullTimeCalc e, _ => e.calculateMonthlySalary
  | .partTimeCalc e, hoursWorked => e.calculatePay hoursWorked

/-- calculateOvertimePay: both variants return 0 when overtimeHours <= 0;
full-time otherwise pays `overtimeHours * (annualSalary / (52 * 40)) * 1.5`,
part-time pays `overtimeHours * hourlyRate * 1.5`. -/
def PayslipCalculator.calculateOvertimePay : PayslipCalculator → ℚ → ℚ
  | .fullTimeCalc e, overtimeHours =>
      if overtimeHours ≤ 0 then 0
      else overtimeHours * (e.getAnnualSalary / (52 * 40)) * 1.5
  | .partTimeCalc e, overtimeHours =>
      if overtimeHours ≤ 0 then 0
      else overtimeHours * e.getHourlyRate * 1.5

/-- PayslipCalculator.calculatePayslip, the shared template method. -/
def PayslipCalculator.calculatePayslip (c : PayslipCalculator)
    (hoursWorked overtimeHours deductions : ℚ) : PayslipResult :=
  let basePay := c.calculateBasePay hoursWorked
  let overtimePay := c.calculateOvertimePay overtimeHours
  let grossPay := basePay + overtimePay
  let netPay := grossPay - deductions
  { basePay := basePay, overtimePay := overtimePay, grossPay := grossPay,
    deductions := deductions, netPay := netPay,
    hoursWorked := hoursWorked, overtimeHours := overtimeHours }

/-- PayslipCalculatorFactory.createCalculator: instanceof dispatch on the
two concrete employee classes; the `throw` branch of the source is
unreachable because BaseEmployee is a closed sum of exactly those two. -/
def PayslipCalculatorFactory.createCalculator : BaseEmployee → Except String PayslipCalculator
  | .full e => .ok (.fullTimeCalc e)
  | .part e => .ok (.partTimeCalc e)

/-- The calculation path of the calculate route: select the calculator
for the employee, then run calculatePayslip on the period inputs. -/
def calculateViaFactory (emp : BaseEmployee) (hoursWorked overtimeHours deductions : ℚ) :
    Except String PayslipResult :=
  (PayslipCalculatorFactory.createCalculator emp).map
    (fun c => c.calculatePayslip hoursWorked overtimeHours deductions)

/-- A role record as persisted (shared/schema.ts): the salary band is
stored as decimal strings; the route handlers parseFloat them before
constructing the transient Role object. -/
structure StoredRole where
  id : Nat
  title : String
  description : String
  department : String
  level : Nat
  minSalary : String
  maxSalary : String
  responsibilities : List String
  deriving Repr, DecidableEq

/-- The employee fields accepted by insertEmployeeSchema for
POST /api/employees (shared/schema.ts). -/
structure InsertEmployee where
  firstName : String
  lastName : String
  email : String
  type : String
  roleId : Nat
  salary : String
  startDate : String
  status : String
  deriving Repr, DecidableEq

/-- Outcome of the POST /api/employees handler: the HTTP status, the
response message when the request is rejected, and the record handed to
storage.createEmployee when persistence happens. -/
structure CreateEmployeeOutcome where
  status : Nat
  message : Option String
  persisted : Option InsertEmployee
  deriving Repr, DecidableEq

/-- POST /api/employees handler from src/server/routes.ts.  The ambient
collaborators are passed in explicitly: `parseFloat` (JS number parsing
of the stored decimal strings), `employeeByEmail`
(storage.getEmployeeByEmail, as the found employee id), and `getRole`
(storage.getRole).  `validated` is the result of
insertEmployeeSchema.safeParse on the body. -/
def postEmployeesHandler (parseFloat : String → ℚ)
    (employeeByEmail : String → Option Nat)
    (getRole : Nat → Option StoredRole)
    (validated : Option InsertEmployee) : CreateEmployeeOutcome :=
  match validated with
  | none => { status := 400, message := some "Invalid employee data", persisted := none }
  | some data =>
    if (employeeByEmail data.email).isSome then
      { status := 400, message := some "Employee with this email already exists",
        persisted := none }
    else
      match getRole data.roleId with
      | none => { status := 400, message := some "Invalid role ID", persisted := none }
      | some role =>
        let roleObj : Role :=
          { id := role.id, title := role.title, description := role.description,
            department := role.department, level := role.level,
            minSalary := parseFloat role.minSalary, maxSalary := parseFloat role.maxSalary,
            responsibilities := role.responsibilities }
        if ¬ roleObj.isSalaryInRange (parseFloat data.salary) then
          { status := 400,
            message := some ("Salary must be between " ++ role.minSalary ++ " and " ++
              role.maxSalary ++ " for this role"),
            persisted := none }
        else
          { status := 201, message := none, persisted := some data }

/-- An employee record with its role as resolved by storage.getEmployee
for the calculate route. -/
structure StoredEmployeeWithRole where
  id : Nat
  firstName : String
  lastName : String
  email : String
  type : String
  salary : String
  startDate : String
  role : StoredRole
  deriving Repr, DecidableEq

/-- Outcome of the POST /api/payslips/calculate handler. -/
inductive CalcOutcome where
  | badRequest (message : String)
  | notFound (message : String)
  | serverError (message : String)
  | okResult (result : PayslipResult)
  deriving Repr, DecidableEq

/-- JS number truthiness on an optional numeric request field: absent
(undefined) and 0 are falsy. -/
def isFalsyNum : Option ℚ → Bool
  | none => true
  | some x => x == 0

/-- POST /api/payslips/calculate handler from src/server/routes.ts.
Returns the outcome paired with a flag recording whether
calculatePayslip was invoked.  `employeeId` and `hoursWorked` come from
the request body and may be absent; `overtimeHours` and `deductions`
default to 0 at destructuring.  The guard
`if (!employeeId || !hoursWorked)` rejects falsy values before any
lookup; a factory throw is caught and becomes a 500. -/
def postPayslipsCalculateHandler (parseFloat : String → ℚ)
    (getEmployee : ℚ → Option StoredEmployeeWithRole)
    (employeeId hoursWorked : Option ℚ)
    (overtimeHours deductions : ℚ) : CalcOutcome × Bool :=
  if isFalsyNum employeeId || isFalsyNum hoursWorked then
    (.badRequest "Employee ID and hours worked are required", false)
  else
    match employeeId, hoursWorked with
    | some eid, some hw =>
      match getEmployee eid with
      | none => (.notFound "Employee not found", false)
      | some emp =>
        let roleObj : Role :=
          { id := emp.role.id, title := emp.role.title,
            description := emp.role.description, department := emp.role.department,
            level := emp.role.level, minSalary := parseFloat emp.role.minSalary,
            maxSalary := parseFloat emp.role.maxSalary,
            responsibilities := emp.role.responsibilities }
        match EmployeeFactory.createEmployee emp.id emp.firstName emp.lastName
            emp.email emp.type roleObj emp.startDate (parseFloat emp.salary) with
        | .error _ => (.serverError "Failed to calculate payslip", false)
        | .ok employee =>
          match PayslipCalculatorFactory.createCalculator employee with
          | .error _ => (.serverError "Failed to calculate payslip", false)
          | .ok calculator =>
            (.okResult (calculator.calculatePayslip hw overtimeHours deductions), true)
    | _, _ => (.badRequest "Employee ID and hours worked are required", false)

/-! Concrete fixtures used by witnesses. -/

/-- A sample role with band 50000..100000. -/
def sampleRole : Role :=
  ⟨1, "Engineer", "Builds software", "engineering", 2, 50000, 100000, ["code"]⟩

/-- A sample full-time employee; 62400 / (52 * 40) = 30 per hour equivalent. -/
def sampleFullTime : FullTimeEmployee :=
  ⟨1, "Ada", "L", "ada@example.com", sampleRole, "2020-01-01", 62400⟩

/-- A sample part-time employee at 25 per hour, defaulted 80 hours/month. -/
def samplePartTime : PartTimeEmployee :=
  ⟨2, "Bob", "M", "bob@example.com", sampleRole, "2021-01-01", 25, 80⟩

/-- A second sample role with two distinct responsibilities, used to
exercise removal of an entry sitting after a non-matching prefix. -/
def sampleRoleTwo : Role :=
  ⟨2, "Manager", "Leads the team", "engineering", 3, 60000, 120000, ["code", "review"]⟩

/-- The sample role as persisted, salary band as decimal strings. -/
def sampleStoredRole : StoredRole :=
  ⟨1, "Engineer", "Builds software", "engineering", 2, "50000", "100000", ["code"]⟩

/-- A creation request whose candidate salary 30000 is below the band. -/
def sampleInsertEmployee : InsertEmployee :=
  ⟨"Ada", "L", "ada@example.com", "full-time", 1, "30000", "2020-01-01", "active"⟩

/-- A concrete stand-in for JS parseFloat covering the strings the
fixtures use. -/
def sampleParseFloat : String → ℚ
  | "30000" => 30000
  | "50000" => 50000
  | "100000" => 100000
  | "62400" => 62400
  | _ => 0

/-- A storage in which no employee exists under any email. -/
def noEmployeeByEmail : String → Option Nat := fun _ => none

/-- A storage resolving role id 1 to the sample stored role. -/
def sampleGetRole : Nat → Option StoredRole :=
  fun n => if n = 1 then some sampleStoredRole else none

/-! Claims. -/

/-- Claim C1: for every full-time payslip calculation, the base pay is the
fixed monthly salary annualSalary / 12, independent of hoursWorked, and
the overtime pay is 0 when overtimeHours <= 0 and otherwise
overtimeHours * (annualSalary / (52 * 40)) * 1.5. -/
theorem C1_fullTime_base_and_overtime (e : FullTimeEmployee)
    (hoursWorked overtimeHours deductions : ℚ) :
    ((PayslipCalculator.fullTimeCalc e).calculatePayslip hoursWorked overtimeHours
        deductions).basePay = e.annualSalary / 12 ∧
    (overtimeHours ≤ 0 →
      ((PayslipCalculator.fullTimeCalc e).calculatePayslip hoursWorked overtimeHours
        deductions).overtimePay = 0) ∧
    (0 < overtimeHours →
      ((PayslipCalculator.fullTimeCalc e).calculatePayslip hoursWorked overtimeHours
        deductions).overtimePay = overtimeHours * (e.annualSalary / (52 * 40)) * 1.5) := by
  refine ⟨rfl, fun h => ?_, fun h => ?_⟩
  · simp [PayslipCalculator.calculatePayslip, PayslipCalculator.calculateOvertimePay, h]
  · simp [PayslipCalculator.calculatePayslip, PayslipCalculator.calculateOvertimePay,
      FullTimeEmployee.getAnnualSalary, not_le.mpr h]

/-- Witness for C1 at concrete inputs: overtimeHours = 4 (positive) and
overtimeHours = -2 (nonpositive). -/
theorem C1_fullTime_base_and_overtime_witness :
    (0:ℚ) < 4 ∧
    ((PayslipCalculator.fullTimeCalc sampleFullTime).calculatePayslip 10 4 0).overtimePay
      = 4 * ((62400:ℚ) / (52 * 40)) * 1.5 ∧
    (-2:ℚ) ≤ 0 ∧
    ((PayslipCalculator.fullTimeCalc sampleFullTime).calculatePayslip 10 (-2) 0).overtimePay
      = 0 := by
  refine ⟨by norm_num, ?_, by norm_num, ?_⟩
  · exact (C1_fullTime_base_and_overtime sampleFullTime 10 4 0).2.2 (by norm_num)
  · exact (C1_fullTime_base_and_overtime sampleFullTime 10 (-2) 0).2.1 (by norm_num)

/-- Claim C2: for every part-time payslip calculation, the base pay is
hourlyRate * hoursWorked, and the overtime pay is 0 when
overtimeHours <= 0 and otherwise overtimeHours * hourlyRate * 1.5. -/
theorem C2_partTime_base_and_overtime (e : PartTimeEmployee)
    (hoursWorked overtimeHours deductions : ℚ) :
    ((PayslipCalculator.partTimeCalc e).calculatePayslip hoursWorked overtimeHours
        deductions).basePay = e.hourlyRate * hoursWorked ∧
    (overtimeHours ≤ 0 →
      ((PayslipCalculator.partTimeCalc e).calculatePayslip hoursWorked overtimeHours
        deductions).overtimePay = 0) ∧
    (0 < overtimeHours →
      ((PayslipCalculator.partTimeCalc e).calculatePayslip hoursWorked overtimeHours
        deductions).overtimePay = overtimeHours * e.hourlyRate * 1.5) := by
  refine ⟨rfl, fun h => ?_, fun h => ?_⟩
  · simp [PayslipCalculator.calculatePayslip, PayslipCalculator.calculateOvertimePay, h]
  · simp [PayslipCalculator.calculatePayslip, PayslipCalculator.calculateOvertimePay,
      PartTimeEmployee.getHourlyRate, not_le.mpr h]

/-- Witness for C2 at concrete inputs: overtimeHours = 5 (positive),
overtimeHours = 0 and overtimeHours = -3 (nonpositive). -/
theorem C2_partTime_base_and_overtime_witness :
    (0:ℚ) < 5 ∧
    ((PayslipCalculator.partTimeCalc samplePartTime).calculatePayslip 60 5 0).overtimePay
      = 5 * (25:ℚ) * 1.5 ∧
    (0:ℚ) ≤ 0 ∧
    ((PayslipCalculator.partTimeCalc samplePartTime).calculatePayslip 60 0 0).overtimePay
      = 0 ∧
    (-3:ℚ) ≤ 0 ∧
    ((PayslipCalculator.partTimeCalc samplePartTime).calculatePayslip 60 (-3) 0).overtimePay
      = 0 := by
  refine ⟨by norm_num, ?_, by norm_num, ?_, by norm_num, ?_⟩
  · exact (C2_partTime_base_and_overtime samplePartTime 60 5 0).2.2 (by norm_num)
  · exact (C2_partTime_base_and_overtime samplePartTime 60 0 0).2.1 (by norm_num)
  · exact (C2_partTime_base_and_overtime samplePartTime 60 (-3) 0).2.1 (by norm_num)

/-- Claim C3: every PayslipResult of calculatePayslip, for either
calculator variant and all inputs, satisfies
grossPay = basePay + overtimePay and netPay = grossPay - deductions, and
carries its deductions, hoursWorked and overtimeHours inputs through
unchanged. -/
theorem C3_payslip_result_invariants (c : PayslipCalculator)
    (hoursWorked overtimeHours deductions : ℚ) :
    (c.calculatePayslip hoursWorked overtimeHours deductions).grossPay
      = (c.calculatePayslip hoursWorked overtimeHours deductions).basePay
        + (c.calculatePayslip hoursWorked overtimeHours deductions).overtimePay ∧
    (c.calculatePayslip hoursWorked overtimeHours deductions).netPay
      = (c.calculatePayslip hoursWorked overtimeHours deductions).grossPay
        - (c.calculatePayslip hoursWorked overtimeHours deductions).deductions ∧
    (c.calculatePayslip hoursWorked overtimeHours deductions).deductions = deductions ∧
    (c.calculatePayslip hoursWorked overtimeHours deductions).hoursWorked = hoursWorked ∧
    (c.calculatePayslip hoursWorked overtimeHours deductions).overtimeHours = overtimeHours :=
  ⟨rfl, rfl, rfl, rfl, rfl⟩

/-- Claim C4: EmployeeFactory.createEmployee builds the full-time variant
with annualSalary = compensation for kind "full-time", the part-time
variant with hourlyRate = compensation and defaultHoursPerMonth = 80 for
kind "part-time", and errors with the unknown-kind message for every
other kind, never defaulting to a variant. -/
theorem C4_employee_factory_dispatch (id : Nat) (fn ln em : String) (role : Role)
    (sd : String) (salary : ℚ) (kind : String) :
    EmployeeFactory.createEmployee id fn ln em "full-time" role sd salary
      = .ok (.full ⟨id, fn, ln, em, role, sd, salary⟩) ∧
    EmployeeFactory.createEmployee id fn ln em "part-time" role sd salary
      = .ok (.part ⟨id, fn, ln, em, role, sd, salary, 80⟩) ∧
    (kind ≠ "full-time" → kind ≠ "part-time" →
      EmployeeFactory.createEmployee id fn ln em kind role sd salary
        = .error ("Unknown employee type: " ++ kind)) := by
  refine ⟨rfl, rfl, fun h1 h2 => ?_⟩
  simp [EmployeeFactory.createEmployee, h1, h2]

/-- Witness for C4 at the concrete unknown kind "contractor". -/
theorem C4_employee_factory_dispatch_witness :
    "contractor" ≠ "full-time" ∧ "contractor" ≠ "part-time" ∧
    EmployeeFactory.createEmployee 1 "Ada" "L" "ada@example.com" "contractor"
        sampleRole "2020-01-01" 1000
      = .error "Unknown employee type: contractor" := by
  refine ⟨by decide, by decide, ?_⟩
  exact (C4_employee_factory_dispatch 1 "Ada" "L" "ada@example.com" sampleRole
    "2020-01-01" 1000 "contractor").2.2 (by decide) (by decide)

/-- Claim C5: when the candidate salary is outside the target role's
band, the POST /api/employees handler rejects with status 400 and the
message naming the band bounds, and nothing is persisted. -/
theorem C5_salary_band_rejection (parseFloat : String → ℚ)
    (employeeByEmail : String → Option Nat) (getRole : Nat → Option StoredRole)
    (data : InsertEmployee) (role : StoredRole)
    (hEmail : employeeByEmail data.email = none)
    (hRole : getRole data.roleId = some role)
    (hRange : (Role.mk role.id role.title role.description role.department role.level
        (parseFloat role.minSalary) (parseFloat role.maxSalary)
        role.responsibilities).isSalaryInRange (parseFloat data.salary) = false) :
    postEmployeesHandler parseFloat employeeByEmail getRole (some data)
      = { status := 400,
          message := some ("Salary must be between " ++ role.minSalary ++ " and " ++
            role.maxSalary ++ " for this role"),
          persisted := none } := by
  simp [postEmployeesHandler, hEmail, hRole, hRange]

/-- Witness for C5: candidate salary 30000 against the band
50000..100000 is rejected with the formatted message and no
persistence. -/
theorem C5_salary_band_rejection_witness :
    noEmployeeByEmail sampleInsertEmployee.email = none ∧
    sampleGetRole sampleInsertEmployee.roleId = some sampleStoredRole ∧
    (Role.mk 1 "Engineer" "Builds software" "engineering" 2 (sampleParseFloat "50000")
      (sampleParseFloat "100000") ["code"]).isSalaryInRange (sampleParseFloat "30000")
      = false ∧
    postEmployeesHandler sampleParseFloat noEmployeeByEmail sampleGetRole
        (some sampleInsertEmployee)
      = { status := 400,
          message := some "Salary must be between 50000 and 100000 for this role",
          persisted := none } := by
  refine ⟨rfl, rfl, by decide, ?_⟩
  exact C5_salary_band_rejection sampleParseFloat noEmployeeByEmail sampleGetRole
    sampleInsertEmployee sampleStoredRole rfl rfl (by decide)

/-- Claim C6: for every role with minSalary <= maxSalary,
isSalaryInRange is exactly inclusive band membership, true at both
endpoints and false at minSalary - eps and maxSalary + eps for every
eps > 0; it is a pure total predicate. -/
theorem C6_salary_range_predicate (r : Role) (hband : r.minSalary ≤ r.maxSalary) :
    (∀ c : ℚ, r.isSalaryInRange c = true ↔ (r.minSalary ≤ c ∧ c ≤ r.maxSalary)) ∧
    r.isSalaryInRange r.minSalary = true ∧
    r.isSalaryInRange r.maxSalary = true ∧
    (∀ ε : ℚ, 0 < ε →
      r.isSalaryInRange (r.minSalary - ε) = false ∧
      r.isSalaryInRange (r.maxSalary + ε) = false) := by
  have hmem : ∀ c : ℚ, r.isSalaryInRange c = true ↔ (r.minSalary ≤ c ∧ c ≤ r.maxSalary) := by
    intro c
    simp [Role.isSalaryInRange, ge_iff_le]
  refine ⟨hmem, (hmem _).mpr ⟨le_refl _, hband⟩, (hmem _).mpr ⟨hband, le_refl _⟩, ?_⟩
  intro ε hε
  constructor
  · have hlt : ¬ (r.minSalary ≤ r.minSalary - ε) := by linarith
    simp [Role.isSalaryInRange, ge_iff_le, hlt]
  · have hgt : ¬ (r.maxSalary + ε ≤ r.maxSalary) := by linarith
    simp [Role.isSalaryInRange, hgt]

/-- Witness for C6 on the sample role with band 50000..100000 and
eps = 1. -/
theorem C6_salary_range_predicate_witness :
    sampleRole.minSalary ≤ sampleRole.maxSalary ∧
    sampleRole.isSalaryInRange sampleRole.minSalary = true ∧
    (0:ℚ) < 1 ∧
    sampleRole.isSalaryInRange (sampleRole.minSalary - 1) = false := by
  refine ⟨by norm_num [sampleRole], ?_, by norm_num, ?_⟩
  · exact (C6_salary_range_predicate sampleRole (by norm_num [sampleRole])).2.1
  · exact ((C6_salary_range_predicate sampleRole (by norm_num [sampleRole])).2.2.2
      1 (by norm_num)).1

/-- Claim C7: the full-time variant reports monthly base salary
annualSalary / 12, kind "full-time" and benefits eligibility true; the
part-time variant reports hourlyRate * defaultHoursPerMonth, kind
"part-time" and benefits eligibility false. -/
theorem C7_variant_behavior (f : FullTimeEmployee) (p : PartTimeEmployee) :
    (BaseEmployee.full f).calculateMonthlySalary = f.annualSalary / 12 ∧
    (BaseEmployee.full f).getEmployeeType = "full-time" ∧
    (BaseEmployee.full f).isEligibleForBenefits = true ∧
    (BaseEmployee.part p).calculateMonthlySalary = p.hourlyRate * p.defaultHoursPerMonth ∧
    (BaseEmployee.part p).getEmployeeType = "part-time" ∧
    (BaseEmployee.part p).isEligibleForBenefits = false :=
  ⟨rfl, rfl, rfl, rfl, rfl, rfl⟩

/-- Counterexample to C8: the Role constructor stores the given
responsibilities list as-is, so a role constructed with a duplicated
list violates the no-duplicates invariant immediately — the invariant is
not established at construction. -/
theorem C8_constructor_no_dedup :
    ¬ (Role.mk 1 "Engineer" "Builds software" "engineering" 2 50000 100000
        ["code", "code"]).responsibilities.Nodup := by
  decide

/-- Claim C8 as amended: when the responsibilities list is
duplicate-free, the no-duplicates invariant is preserved by
addResponsibility (which appends only if an identical entry is absent,
case-sensitively, and is a no-op otherwise) and by removeResponsibility
(which erases the first exact match and is a no-op when the entry is
absent); the constructor itself performs no deduplication. -/
theorem C8_nodup_preserved (r : Role) (t : String)
    (hnodup : r.responsibilities.Nodup) :
    (r.addResponsibility t).responsibilities.Nodup ∧
    (r.removeResponsibility t).responsibilities.Nodup ∧
    (r.responsibilities.contains t = true → r.addResponsibility t = r) ∧
    (r.responsibilities.contains t = false →
      (r.addResponsibility t).responsibilities = r.responsibilities ++ [t]) ∧
    (r.responsibilities.contains t = false → r.removeResponsibility t = r) ∧
    (∀ l₁ l₂ : List String, r.responsibilities = l₁ ++ t :: l₂ → t ∉ l₁ →
      (r.removeResponsibility t).responsibilities = l₁ ++ l₂) := by
  refine ⟨?_, hnodup.erase t, fun hc => ?_, fun hc => ?_, fun hc => ?_,
    fun l₁ l₂ hsplit hnot => ?_⟩
  · by_cases hm : t ∈ r.responsibilities
    · simpa [Role.addResponsibility, hm] using hnodup
    · simp [Role.addResponsibility, hm, List.nodup_append, hnodup]
  · have hm : t ∈ r.responsibilities := by simpa using hc
    simp [Role.addResponsibility, hm]
  · have hm : t ∉ r.responsibilities := by simpa using hc
    simp [Role.addResponsibility, hm]
  · have hm : t ∉ r.responsibilities := by simpa using hc
    cases r with
    | mk id title description department level minSalary maxSalary responsibilities =>
      simp [Role.removeResponsibility, List.erase_of_not_mem hm]
  · show (r.responsibilities.erase t) = l₁ ++ l₂
    rw [hsplit, List.erase_append_right _ hnot, List.erase_cons_head]

/-- Witness for C8 on the second sample role (duplicate-free list of
code and review): adding an absent entry appends it, removing an absent
entry is a no-op, and removing a present entry deletes its first match
after the non-matching prefix. -/
theorem C8_nodup_preserved_witness :
    sampleRoleTwo.responsibilities.Nodup ∧
    sampleRoleTwo.responsibilities.contains "docs" = false ∧
    (sampleRoleTwo.addResponsibility "docs").responsibilities
      = ["code", "review", "docs"] ∧
    sampleRoleTwo.removeResponsibility "docs" = sampleRoleTwo ∧
    sampleRoleTwo.responsibilities = ["code"] ++ "review" :: [] ∧
    "review" ∉ (["code"] : List String) ∧
    (sampleRoleTwo.removeResponsibility "review").responsibilities = ["code"] ++ [] := by
  refine ⟨by decide, by decide, ?_, ?_, by decide, by decide, ?_⟩
  · exact (C8_nodup_preserved sampleRoleTwo "docs" (by decide)).2.2.2.1 (by decide)
  · exact (C8_nodup_preserved sampleRoleTwo "docs" (by decide)).2.2.2.2.1 (by decide)
  · exact (C8_nodup_preserved sampleRoleTwo "review" (by decide)).2.2.2.2.2
      ["code"] [] (by decide) (by decide)

/-- Claim C9: for every employee variant and all rational inputs —
negative hours, negative overtime, negative deductions included — the
calculation path never errors and returns a PayslipResult that carries
the inputs through; no validation of negative inputs occurs. -/
theorem C9_no_input_validation (emp : BaseEmployee) (hoursWorked overtimeHours deductions : ℚ) :
    ∃ r : PayslipResult,
      calculateViaFactory emp hoursWorked overtimeHours deductions = .ok r ∧
      r.hoursWorked = hoursWorked ∧ r.overtimeHours = overtimeHours ∧
      r.deductions = deductions := by
  cases emp with
  | full e => exact ⟨_, rfl, rfl, rfl, rfl⟩
  | part e => exact ⟨_, rfl, rfl, rfl, rfl⟩

/-- Claim C10: whenever employeeId or hoursWorked is absent or 0 (JS
falsy), the calculate route answers 400 with the required-fields message
and never invokes the payslip calculator, even though the core itself
accepts hoursWorked = 0 and returns a result there. -/
theorem C10_falsy_guard (parseFloat : String → ℚ)
    (getEmployee : ℚ → Option StoredEmployeeWithRole)
    (employeeId hoursWorked : Option ℚ) (overtimeHours deductions : ℚ)
    (hfalsy : isFalsyNum employeeId = true ∨ isFalsyNum hoursWorked = true) :
    postPayslipsCalculateHandler parseFloat getEmployee employeeId hoursWorked
        overtimeHours deductions
      = (.badRequest "Employee ID and hours worked are required", false) ∧
    ∀ (c : PayslipCalculator) (ot d : ℚ),
      (c.calculatePayslip 0 ot d).hoursWorked = 0 := by
  constructor
  · rcases hfalsy with h | h <;>
      simp [postPayslipsCalculateHandler, h]
  · intro c ot d
    rfl

/-- Witness for C10 at hoursWorked = 0 with a present employeeId. -/
theorem C10_falsy_guard_witness :
    isFalsyNum (some (0:ℚ)) = true ∧
    postPayslipsCalculateHandler sampleParseFloat (fun _ => none) (some 1) (some 0) 0 0
      = (.badRequest "Employee ID and hours worked are required", false) := by
  refine ⟨by decide, ?_⟩
  exact (C10_falsy_guard sampleParseFloat (fun _ => none) (some 1) (some 0) 0 0
    (Or.inr (by decide))).1

end PayslipGen
